import Mathlib

/-!
Verification of the journaling companion's daily-journal aggregation and
analysis pipeline (src/database.py and src/app.py) against its
natural-language specification.

Modelling conventions of the shallow embedding:

* The SQLite `entries` table is a `DB`: a list of rows in rowid order plus
  the next AUTOINCREMENT id.  Each SQL statement of the source becomes a
  pure function on `DB`.
* `datetime.now()` / SQL `CURRENT_TIMESTAMP` are passed in explicitly as
  the `today` / `now` string parameters of each operation.
* The `conversation` and `themes` columns are JSON text in the source; the
  rows keep them structured and `dumps_conversation` reproduces Python's
  `json.dumps` (default separators, `ensure_ascii=True`) where the code
  compares or searches the serialized text.
* `REAL` sentiment scores are modelled as rationals; the code only stores
  them and compares them with the literal `0.3`, so no floating-point
  rounding is observable in any claim considered here.
* The module-global `_after_commit` callback is passed explicitly as a
  `hook` argument; one invocation of the Python callback is modelled by an
  `Except String Unit` (its normal or raising outcome), and each write
  returns the list of `Event`s it emitted (the commit, the hook call and
  the logged hook error), so the catch-and-log behaviour of
  `_notify_after_commit` is visible in the trace.
* The hosted model calls (`sentiment_analyzer`, `theme_classifier`,
  `groq_client.chat.completions.create`) are opaque collaborators: their
  outputs are parameters, and the chat call is a function from the
  role-tagged messages to `Except String String` (its reply or the text of
  the exception it raised).
* String case folding (`.upper()`, `.lower()`, SQLite `LIKE`) is modelled
  on ASCII letters, which is exact for every label and pattern the
  program produces, and matches SQLite's default `LIKE` semantics.
-/

namespace Journal

/-- One `{user, luna, timestamp}` element of the `conversation` JSON blob. -/
structure Message where
  user : String
  luna : String
  timestamp : String
deriving DecidableEq

/-- One row of the `entries` table (src/database.py, `init_database`). -/
structure Entry where
  id : Nat
  entry_date : String
  conversation : List Message
  overall_sentiment : Option String
  sentiment_score : Option ℚ
  themes : Option (List String)
  mood_color : Option String
  created_at : String
  updated_at : String
deriving DecidableEq

/-- The `entries` table: rows in rowid order, plus the next AUTOINCREMENT id. -/
structure DB where
  entries : List Entry
  nextId : Nat
deriving DecidableEq

/-- `init_database`: a fresh database with an empty `entries` table. -/
def init_database : DB := ⟨[], 1⟩

/-- Observable effects of one write call: the SQL commit, the after-commit
hook invocation, and the log line printed when the hook raises. -/
inductive Event where
  | commit
  | hookCalled
  | hookError (msg : String)
deriving DecidableEq

/-- One possible outcome of calling the configured `_after_commit` callback:
`none` when no callback is configured, otherwise the call's normal return or
the exception it raised. -/
def Hook : Type := Option (Except String Unit)

/-- `_notify_after_commit` (src/database.py lines 38-43): call the callback
if configured; an exception is caught and printed, never re-raised.  The
returned events record the call and the logged error. -/
def notify_after_commit (hook : Hook) : List Event :=
  match hook with
  | none => []
  | some (Except.ok _) => [Event.hookCalled]
  | some (Except.error e) =>
      [Event.hookCalled, Event.hookError ("⚠️ after_commit callback error: " ++ e)]

/-- Result of one write call: the database after the commit, the Python
return value, and the emitted events. -/
structure WriteResult (α : Type) where
  db : DB
  ret : α
  events : List Event
deriving DecidableEq

/-! ### Python `json.dumps` of the conversation blob -/

/-- Lower-case hex digit, as produced by Python's `\uXXXX` escapes. -/
def hexDigit (n : Nat) : Char :=
  if n < 10 then Char.ofNat (48 + n) else Char.ofNat (87 + n)

/-- A `\uXXXX` escape for one 16-bit unit. -/
def uEscape (n : Nat) : List Char :=
  ['\\', 'u', hexDigit (n / 4096 % 16), hexDigit (n / 256 % 16),
   hexDigit (n / 16 % 16), hexDigit (n % 16)]

/-- Python `json.dumps` escaping of one character (`ensure_ascii=True`):
backslash, quote and the short escapes, printable ASCII verbatim, everything
else as `\uXXXX` (with surrogate pairs above U+FFFF). -/
def escape_char (c : Char) : List Char :=
  if c = '\\' then ['\\', '\\']
  else if c = '"' then ['\\', '"']
  else if c.toNat = 8 then ['\\', 'b']
  else if c.toNat = 9 then ['\\', 't']
  else if c.toNat = 10 then ['\\', 'n']
  else if c.toNat = 12 then ['\\', 'f']
  else if c.toNat = 13 then ['\\', 'r']
  else if 32 ≤ c.toNat ∧ c.toNat ≤ 126 then [c]
  else if c.toNat < 65536 then uEscape c.toNat
  else uEscape (55296 + (c.toNat - 65536) / 1024) ++ uEscape (56320 + (c.toNat - 65536) % 1024)

/-- A JSON string literal for `s`. -/
def json_quote (s : String) : List Char :=
  '"' :: (s.data.flatMap escape_char) ++ ['"']

/-- `json.dumps` of one conversation message: an object with the keys in
insertion order (`user`, `luna`, `timestamp`) and default separators. -/
def dumps_message (m : Message) : List Char :=
  '\x7b' :: (json_quote "user" ++ (": ").data ++ json_quote m.user
    ++ (", ").data ++ json_quote "luna" ++ (": ").data ++ json_quote m.luna
    ++ (", ").data ++ json_quote "timestamp" ++ (": ").data ++ json_quote m.timestamp)
    ++ ['\x7d']

/-- The `", "`-joined element list of the serialized conversation array. -/
def dumps_list : List Message → List Char
  | [] => []
  | [m] => dumps_message m
  | m :: m' :: ms => dumps_message m ++ (", ").data ++ dumps_list (m' :: ms)

/-- `json.dumps(conversation)`: the serialized text stored in the
`conversation` column. -/
def dumps_conversation (l : List Message) : String :=
  ⟨'[' :: dumps_list l ++ [']']⟩

/-! ### Byte-order string comparison (SQLite's BINARY collation) -/

/-- Strict lexicographic order on code points; on the UTF-8 text SQLite
stores this is exactly its BINARY (memcmp) collation. -/
def listLe : List Char → List Char → Bool
  | [], _ => true
  | _ :: _, [] => false
  | a :: as, b :: bs =>
      if a.toNat < b.toNat then true
      else if b.toNat < a.toNat then false
      else listLe as bs

/-- `s <= t` under SQLite's BINARY collation. -/
def date_le (s t : String) : Bool := listLe s.data t.data

/-! ### Database operations (src/database.py) -/

/-- The `SELECT ... WHERE entry_date = ?` + `fetchone()` lookup used by the
write paths: the first row with the given date. -/
def findByDate (db : DB) (d : String) : Option Entry :=
  db.entries.find? (fun e => e.entry_date == d)

/-- `save_conversation_message` (src/database.py lines 70-117).  `today` is
`datetime.now().date().isoformat()` and `now` stands for both the message's
`datetime.now().isoformat()` timestamp and SQL `CURRENT_TIMESTAMP`.  When a
row for `today` exists, only `conversation` and `updated_at` are written
back; otherwise a new row is inserted carrying the analysis values. -/
def save_conversation_message (db : DB) (hook : Hook) (today now : String)
    (user_message ai_response : String) (sentiment : String)
    (sentiment_score : ℚ) (themes : List String) : WriteResult Nat :=
  let message_data : Message := ⟨user_message, ai_response, now⟩
  match findByDate db today with
  | some existing =>
      let entry_id := existing.id
      let conversation := existing.conversation ++ [message_data]
      let entries := db.entries.map (fun e =>
        if e.id == entry_id then
          { e with conversation := conversation, updated_at := now }
        else e)
      ⟨⟨entries, db.nextId⟩, entry_id, Event.commit :: notify_after_commit hook⟩
  | none =>
      let newEntry : Entry :=
        ⟨db.nextId, today, [message_data], some sentiment, some sentiment_score,
         some themes, none, now, now⟩
      ⟨⟨db.entries ++ [newEntry], db.nextId + 1⟩, db.nextId,
       Event.commit :: notify_after_commit hook⟩

/-- `save_mood_color` (src/database.py lines 247-276): update `mood_color`
and `updated_at` of today's row, or insert a row whose conversation is the
serialized empty list. -/
def save_mood_color (db : DB) (hook : Hook) (today now color : String) :
    WriteResult Bool :=
  match findByDate db today with
  | some _ =>
      let entries := db.entries.map (fun e =>
        if e.entry_date == today then
          { e with mood_color := some color, updated_at := now }
        else e)
      ⟨⟨entries, db.nextId⟩, true, Event.commit :: notify_after_commit hook⟩
  | none =>
      let newEntry : Entry :=
        ⟨db.nextId, today, [], none, none, none, some color, now, now⟩
      ⟨⟨db.entries ++ [newEntry], db.nextId + 1⟩, true,
       Event.commit :: notify_after_commit hook⟩

/-- `delete_entry` (src/database.py lines 208-217): `DELETE FROM entries
WHERE id = ?`, then commit and notify. -/
def delete_entry (db : DB) (hook : Hook) (entry_id : Nat) : WriteResult Unit :=
  ⟨⟨db.entries.filter (fun e => !(e.id == entry_id)), db.nextId⟩, (),
   Event.commit :: notify_after_commit hook⟩

/-- Descending insertion by `entry_date` (ties keep the earlier-inserted row
first); used to model `ORDER BY entry_date DESC`. -/
def insertByDateDesc (e : Entry) : List Entry → List Entry
  | [] => [e]
  | f :: fs =>
      if date_le f.entry_date e.entry_date then e :: f :: fs
      else f :: insertByDateDesc e fs

/-- `ORDER BY entry_date DESC` over a row list. -/
def orderByDateDesc : List Entry → List Entry
  | [] => []
  | e :: es => insertByDateDesc e (orderByDateDesc es)

/-- SQLite `LIKE` pattern matching: `%` matches any sequence, `_` any one
character, and literal characters compare ASCII-case-insensitively (the
default, no `case_sensitive_like` pragma is set anywhere in the source). -/
def lowerAscii (c : Char) : Char :=
  if 65 ≤ c.toNat ∧ c.toNat ≤ 90 then Char.ofNat (c.toNat + 32) else c

/-- Does `f` accept some suffix of the list?  A `%` wildcard consumes any
prefix of the text, so it matches when the rest of the pattern accepts some
suffix. -/
def anySuffix (f : List Char → Bool) : List Char → Bool
  | [] => f []
  | d :: s => f (d :: s) || anySuffix f s

/-- The `LIKE` matcher itself, on character lists. -/
def likeMatch : List Char → List Char → Bool
  | [], s => s.isEmpty
  | p :: ps, s =>
      if p = '%' then anySuffix (likeMatch ps) s
      else
        match s with
        | [] => false
        | d :: s' =>
            if p = '_' then likeMatch ps s'
            else (lowerAscii p == lowerAscii d) && likeMatch ps s'

/-- `column LIKE '%term%'` as built by `search_entries`. -/
def likeContains (s term : String) : Bool :=
  likeMatch ('%' :: term.data ++ ['%']) s.data

/-- `search_entries` (src/database.py lines 219-245): rows whose date or
serialized conversation blob matches `LIKE '%term%'`, ordered by date
descending. -/
def search_entries (db : DB) (search_term : String) : List Entry :=
  orderByDateDesc (db.entries.filter (fun e =>
    likeContains e.entry_date search_term
      || likeContains (dumps_conversation e.conversation) search_term))

/-- ASCII upper-casing of a label, as `.upper()` acts on the sentiment
labels the program stores. -/
def str_upper (s : String) : String :=
  ⟨s.data.map (fun c =>
    if 97 ≤ c.toNat ∧ c.toNat ≤ 122 then Char.ofNat (c.toNat - 32) else c)⟩

/-- SQL `MAX(entry_date)` over a list of dates (`NULL` on the empty set). -/
def sql_max_date (l : List String) : Option String :=
  l.foldl (fun acc d =>
    match acc with
    | none => some d
    | some m => some (if date_le m d then d else m)) none

/-- Insert-or-overwrite into the Python dict built from the `GROUP BY`
rows, keyed by the upper-cased label. -/
def dict_insert (d : List (String × Nat)) (k : String) (v : Nat) :
    List (String × Nat) :=
  if d.any (fun p => p.1 == k) then
    d.map (fun p => if p.1 == k then (k, v) else p)
  else d ++ [(k, v)]

/-- The result record of `get_stats`. -/
structure Stats where
  total_entries : Nat
  avg_positive : ℚ
  sentiment_counts : List (String × Nat)
  last_entry : Option String

/-- The `GROUP BY overall_sentiment` rows over the non-NULL sentiments:
one `(label, count)` pair per distinct stored label (SQLite leaves the
group order unspecified; first appearance order is used here). -/
def sentiment_groups (entries : List Entry) : List (String × Nat) :=
  ((entries.filterMap (fun e => e.overall_sentiment)).dedup).map (fun s =>
    (s, (entries.filter (fun e => e.overall_sentiment == some s)).length))

/-- `get_stats` (src/database.py lines 175-206).  The day count and the most
recent date range only over rows whose conversation text differs from
`'[]'`; the sentiment grouping runs over every row with a non-NULL
sentiment, with no condition on the conversation. -/
def get_stats (db : DB) : Stats :=
  let total_entries :=
    (db.entries.filter (fun e => !(dumps_conversation e.conversation == "[]"))).length
  let pos_scores := db.entries.filterMap (fun e =>
    if e.overall_sentiment == some "positive" then e.sentiment_score else none)
  let avg_positive : ℚ :=
    if pos_scores.length = 0 then 0 else pos_scores.sum / pos_scores.length
  let sentiment_counts := (sentiment_groups db.entries).foldl (fun d p =>
    if p.1 == "" then d else dict_insert d (str_upper p.1) p.2) []
  let last_entry := sql_max_date
    ((db.entries.filter (fun e => !(dumps_conversation e.conversation == "[]"))).map
      (fun e => e.entry_date))
  ⟨total_entries, avg_positive, sentiment_counts, last_entry⟩

/-! ### The analyzer and generator (src/app.py) -/

/-- The fixed candidate vocabulary handed to the theme classifier. -/
def THEMES : List String :=
  ["Work & Career", "Relationships & Social", "Health & Wellness",
   "Personal Growth", "Creativity & Hobbies", "Emotions & Mental Health",
   "Daily Life & Routine", "Nature & Outdoors"]

/-- The dict `analyze_entry` returns. -/
structure Analysis where
  sentiment : String
  sentiment_score : ℚ
  themes : List (String × ℚ)
deriving DecidableEq

/-- `analyze_entry` (src/app.py lines 112-134).  The two hosted models are
opaque: the sentiment model's best label and confidence, and the theme
model's parallel `labels`/`scores` lists, are inputs.  The loop keeps a
`(label, score)` pair when its score exceeds `0.3` and fewer than 3 pairs
were kept so far. -/
def analyze_entry (sentiment_label : String) (sentiment_score : ℚ)
    (theme_labels : List String) (theme_scores : List ℚ) : Analysis :=
  let top_themes := (theme_labels.zip theme_scores).foldl
    (fun acc ls => if ls.2 > 3/10 ∧ acc.length < 3 then acc ++ [ls] else acc) []
  ⟨sentiment_label, sentiment_score, top_themes⟩

/-- ASCII lower-casing, as `.lower()` acts on the model's sentiment labels. -/
def str_lower (s : String) : String := ⟨s.data.map lowerAscii⟩

/-- Python's `pat in s` substring test: does `pat` start at some position? -/
def startsWithChars : List Char → List Char → Bool
  | [], _ => true
  | _ :: _, [] => false
  | a :: as, b :: bs => (a == b) && startsWithChars as bs

/-- Case-sensitive substring scan over all start positions. -/
def infixChars (pat : List Char) : List Char → Bool
  | [] => startsWithChars pat []
  | d :: s => startsWithChars pat (d :: s) || infixChars pat s

/-- Python `pat in s` on strings. -/
def containsStr (s pat : String) : Bool := infixChars pat.data s.data

/-- The persona/style system prompt of `generate_response` (src/app.py
lines 141-185), verbatim. -/
def luna_system_prompt : String := "You are Luna, a warm and empathetic journaling companion. You guide users through meaningful self-reflection by adapting to different journaling styles.

YOUR APPROACH - Detect the type of journaling and respond accordingly:

1. FACTUAL ACCOUNT (Events without emotions):
   Signs: \"I went to...\", \"I did...\", descriptive without feelings
   ‚Üí Ask: \"What part of today stood out the most for you?\"
   ‚Üí If they mention emotions next ‚Üí explore those feelings
   ‚Üí If they mention learning ‚Üí ask how it might be useful

2. SELF REFLECTION (Negative or complex emotions):
   Signs: \"I felt stressed/sad/overwhelmed/angry/anxious\"
   ‚Üí Ask: \"What do you think caused that feeling today?\"
   ‚Üí Gently explore the cause
   ‚Üí Then transition: \"Even in challenging moments, was there anything you're grateful for?\"

3. GRATITUDE (Thankfulness expressed):
   Signs: \"I'm thankful/grateful\", \"I appreciate\", or after reflection
   ‚Üí Ask: \"That sounds meaningful. Why do you think that mattered to you today?\"
   ‚Üí Then: \"What's one intention you'd like to set for tomorrow?\"

4. LEARNING (Insights and realizations):
   Signs: \"I learned\", \"I realized\", \"I discovered\", \"I understood\"
   ‚Üí Ask: \"How do you think this might be useful in your life?\"
   ‚Üí Connect to future goals or gratitude

5. FUTURE SELF (Aspirations and hopes):
   Signs: \"I want\", \"I hope\", \"In the future\", \"One day\"
   ‚Üí Ask: \"What's one small step you could take toward that?\"
   ‚Üí Help them set concrete intentions

6. INTENTION SETTING (Commitments):
   Signs: \"I will\", \"Tomorrow I want to\", \"My goal is\", \"I plan to\"
   ‚Üí Ask: \"What might get in the way of this intention?\"
   ‚Üí Help anticipate obstacles, then encourage

IMPORTANT RULES:
- Only ask ONE question per response
- Keep responses 2-3 sentences maximum
- Be warm, caring, and non-judgmental
- Don't explicitly mention category names
- Flow naturally between types based on their responses
- Never give medical advice - you're a supportive friend, not a therapist

Your tone is gentle, encouraging, and genuinely curious about their experience."

/-- The role-tagged messages `generate_response` sends to the chat model. -/
def response_messages (entry_text : String) (analysis : Analysis) :
    List (String × String) :=
  let themes_str :=
    if analysis.themes = [] then "general reflection"
    else String.intercalate ", " (analysis.themes.map (fun t => t.1))
  let sentiment_str := str_lower analysis.sentiment
  let user_prompt := "The user just wrote:

\"" ++ entry_text ++ "\"

Context from analysis:
- Emotional tone: " ++ sentiment_str ++ "
- Topics they're thinking about: " ++ themes_str ++ "

Respond with empathy and ask a thoughtful follow-up question that matches their journaling style."
  [("system", luna_system_prompt), ("user", user_prompt)]

/-- `generate_response` (src/app.py lines 136-209).  `chat` is the hosted
chat-completion call (model name, temperature and token budget are fixed
constants of the request and are absorbed into it); an exception from the
call is its `Except.error` text.  The `except` branch returns the apology
string embedding the error text instead of raising. -/
def generate_response (chat : List (String × String) → Except String String)
    (entry_text : String) (analysis : Analysis) : String :=
  match chat (response_messages entry_text analysis) with
  | Except.ok content => content
  | Except.error e => "I'm having trouble connecting right now. Error: " ++ e

/-! ### The weekly wrap (src/app.py) -/

/-- `get_weekly_entries` (src/app.py lines 1338-1365): rows of the last 7
days (`cutoff` is SQL `date('now', '-7 days')`) whose conversation text is
not `'[]'`, ordered by date descending. -/
def get_weekly_entries (db : DB) (cutoff : String) : List Entry :=
  orderByDateDesc (db.entries.filter (fun e =>
    date_le cutoff e.entry_date && !(dumps_conversation e.conversation == "[]")))

/-- The fixed summary returned when the 7-day query comes back empty
(src/app.py lines 1372-1390), verbatim. -/
def weekly_no_entries : String := "
<div style=\"text-align: center; padding: 40px 20px;\">

# üíó Weekly Wrap üíó

<div style=\"font-size: 48px; margin: 30px 0;\">‚úçüèº</div>

### No entries found for the past 7 days

<div style=\"margin: 30px 0; padding: 20px; background: rgba(147, 112, 219, 0.1); border-radius: 15px; border: 1px solid rgba(147, 112, 219, 0.3);\">

**Start journaling to see your weekly wrap-up here!**

</div>

*Tip: Journal for at least 3-4 days this week to get meaningful insights!*

</div>
"

/-- The `day`/`days` pluralization used by every weekly template. -/
def days_text (n : Nat) : String := if n = 1 then "day" else "days"

/-- The \"not enough content\" summary (src/app.py lines 1440-1461):
`oldest`/`newest` are `entries[-1]` and `entries[0]` of the
date-descending list, `n` its length. -/
def weekly_insufficient (oldest newest : String) (n : Nat) : String := "
<div style=\"text-align: center; padding: 40px 20px;\">

# üíó Weekly Wrap üíó

### " ++ oldest ++ " to " ++ newest ++ "
*" ++ Nat.repr n ++ " " ++ days_text n ++ " journaled this week*

<div style=\"font-size: 48px; margin: 30px 0;\">‚úçÔ∏è</div>

<div style=\"margin: 30px 0; padding: 20px; background: rgba(147, 112, 219, 0.1); border-radius: 15px; border: 1px solid rgba(147, 112, 219, 0.3);\">

**Not enough content to generate insights yet**

Your journal entries this week are a great start! However, we need a bit more content to create meaningful patterns and insights.

</div>

*Tip: Try to journal for at least 100 words per day for richer insights!*

</div>
"

/-- The header prepended to a successful wrap (src/app.py lines 1465-1471). -/
def weekly_header (oldest newest : String) (n : Nat) : String :=
  "# üíó Weekly Wrap üíó
*" ++ oldest ++ " to " ++ newest ++ "*
*" ++ Nat.repr n ++ " " ++ days_text n ++ " journaled this week*

---

"

/-- The error panel returned when the chat call raises (src/app.py lines
1476-1504). -/
def weekly_error (n : Nat) (err : String) : String := "
<div style=\"text-align: center; padding: 40px 20px;\">

# üíó Weekly Wrap üíó

<div style=\"font-size: 48px; margin: 30px 0;\">‚ö†Ô∏è</div>

### Couldn't generate analysis

<div style=\"margin: 30px 0; padding: 20px; background: rgba(220, 20, 60, 0.1); border-radius: 15px; border: 1px solid rgba(220, 20, 60, 0.3);\">

Found **" ++ Nat.repr n ++ "** days of entries, but couldn't generate the weekly wrap.

**Possible reasons:**
- API connection issue
- Service temporarily unavailable
- Rate limit reached

**What to do:**
- Click the refresh button to try again
- Check your internet connection
- Try again in a few minutes

</div>

*Error details: " ++ err ++ "*

</div>
"

/-- The summarization prompt (src/app.py lines 1402-1423), with the week's
concatenated messages spliced in. -/
def weekly_prompt (week_text : String) : String :=
  "Analyze the following week of journal entries and create a warm, personalized weekly wrap-up.

Extract and summarize:
1. Things the user expressed gratitude for
2. New things they learned or insights they gained

Journal entries from the past week:

" ++ week_text ++ "

Format your response as:

## Gratitude This Week
[List the things they were grateful for, with brief context]

## What You Learned
[List new insights, learnings, or realizations they had]

## Reflection
[A short, warm reflection on their week - 2-3 sentences]

Be specific and personal. Quote or paraphrase their own words where relevant."

/-- The weekly summarizer's system message. -/
def weekly_system : String :=
  "You are Luna, an empathetic journaling companion. Analyze journal entries and create thoughtful weekly summaries."

/-- `generate_weekly_wrap` (src/app.py lines 1367-1504): the empty-week
placeholder, the model call, the lazy-placeholder post-check, the header on
success, and the error panel when the call raises. -/
def generate_weekly_wrap (db : DB) (cutoff : String)
    (chat : List (String × String) → Except String String) : String :=
  match get_weekly_entries db cutoff with
  | [] => weekly_no_entries
  | e0 :: rest =>
      let es := e0 :: rest
      let all_messages := (es.map (fun e => e.conversation.map (fun m =>
        "**Date: " ++ e.entry_date ++ "**\nYou: " ++ m.user ++ "\nLuna: "
          ++ m.luna ++ "\n"))).flatten
      let week_text := String.intercalate "\n" all_messages
      match chat [("system", weekly_system), ("user", weekly_prompt week_text)] with
      | Except.error e => weekly_error es.length e
      | Except.ok wrap_content =>
          if containsStr wrap_content "[List" || containsStr wrap_content "[A short" then
            weekly_insufficient (es.getLast (List.cons_ne_nil e0 rest)).entry_date
              e0.entry_date es.length
          else
            weekly_header (es.getLast (List.cons_ne_nil e0 rest)).entry_date
              e0.entry_date es.length ++ wrap_content

/-! ### Facts about the serialized conversation blob -/

/-- A serialized non-empty conversation starts with the object brace. -/
lemma dumps_list_cons (m : Message) (ms : List Message) :
    ∃ cs, dumps_list (m :: ms) = '\x7b' :: cs := by
  cases ms with
  | nil => exact ⟨_, rfl⟩
  | cons m' ms' => exact ⟨_, rfl⟩

/-- The stored conversation text is `'[]'` exactly for the empty
conversation: the SQL filters `conversation != '[]'` test list emptiness. -/
lemma dumps_conversation_eq_brackets (l : List Message) :
    dumps_conversation l = "[]" ↔ l = [] := by
  constructor
  · intro h
    cases l with
    | nil => rfl
    | cons m ms =>
        obtain ⟨cs, hcs⟩ := dumps_list_cons m ms
        have hdata : '[' :: (dumps_list (m :: ms) ++ [']']) = ['[', ']'] :=
          congrArg String.data h
        rw [hcs] at hdata
        simp at hdata
  · rintro rfl; rfl

/-- Boolean form of the emptiness test, for rewriting inside filters. -/
lemma dumps_beq_brackets (l : List Message) :
    (dumps_conversation l == "[]") = (l == []) := by
  by_cases h : l = []
  · subst h; rfl
  · have h1 : ¬ dumps_conversation l = "[]" := fun hc =>
      h ((dumps_conversation_eq_brackets l).mp hc)
    rw [beq_eq_false_iff_ne.mpr h1, beq_eq_false_iff_ne.mpr h]

/-! ### The BINARY collation is a total preorder -/

lemma listLe_total (a b : List Char) : listLe a b = true ∨ listLe b a = true := by
  induction a generalizing b with
  | nil => left; rfl
  | cons x xs ih =>
      cases b with
      | nil => right; rfl
      | cons y ys =>
          by_cases hxy : x.toNat < y.toNat
          · left; simp [listLe, hxy]
          · by_cases hyx : y.toNat < x.toNat
            · right; simp [listLe, hyx]
            · rcases ih ys with h | h
              · left; simp [listLe, hxy, hyx, h]
              · right; simp [listLe, hyx, hxy]; exact h

lemma listLe_trans {a b c : List Char} (hab : listLe a b = true)
    (hbc : listLe b c = true) : listLe a c = true := by
  induction a generalizing b c with
  | nil => rfl
  | cons x xs ih =>
      cases b with
      | nil => simp [listLe] at hab
      | cons y ys =>
          cases c with
          | nil => simp [listLe] at hbc
          | cons z zs =>
              simp only [listLe] at hab hbc ⊢
              split_ifs at hab hbc ⊢ <;>
                first
                  | rfl
                  | exact absurd hab (by decide)
                  | exact absurd hbc (by decide)
                  | exact ih hab hbc
                  | (exfalso; omega)

/-- Totality transported to `date_le`. -/
lemma date_le_total (s t : String) : date_le s t = true ∨ date_le t s = true :=
  listLe_total s.data t.data

/-- Transitivity transported to `date_le`. -/
lemma date_le_trans {s t u : String} (h1 : date_le s t = true)
    (h2 : date_le t u = true) : date_le s u = true :=
  listLe_trans h1 h2

/-! ### `ORDER BY entry_date DESC` -/

/-- The relation "comes no later in a date-descending listing". -/
def DateGe (a b : Entry) : Prop := date_le b.entry_date a.entry_date = true

lemma mem_insertByDateDesc {x e : Entry} {l : List Entry} :
    x ∈ insertByDateDesc e l ↔ x = e ∨ x ∈ l := by
  induction l with
  | nil => simp [insertByDateDesc]
  | cons f fs ih =>
      by_cases h : date_le f.entry_date e.entry_date = true
      · simp [insertByDateDesc, h]
      · simp only [insertByDateDesc, if_neg h, List.mem_cons, ih]
        tauto

lemma insertByDateDesc_perm (e : Entry) (l : List Entry) :
    List.Perm (insertByDateDesc e l) (e :: l) := by
  induction l with
  | nil => exact List.Perm.refl _
  | cons f fs ih =>
      by_cases h : date_le f.entry_date e.entry_date = true
      · simp [insertByDateDesc, h]
      · simp only [insertByDateDesc, if_neg h]
        exact (ih.cons f).trans (List.Perm.swap e f fs)

/-- The modelled `ORDER BY` only permutes the filtered rows. -/
lemma orderByDateDesc_perm (l : List Entry) : List.Perm (orderByDateDesc l) l := by
  induction l with
  | nil => exact List.Perm.refl _
  | cons e es ih => exact (insertByDateDesc_perm e (orderByDateDesc es)).trans (ih.cons e)

lemma pairwise_insertByDateDesc {e : Entry} {l : List Entry}
    (hl : l.Pairwise DateGe) : (insertByDateDesc e l).Pairwise DateGe := by
  induction l with
  | nil => simp [insertByDateDesc, List.Pairwise]
  | cons f fs ih =>
      rcases List.pairwise_cons.mp hl with ⟨hf, hfs⟩
      by_cases h : date_le f.entry_date e.entry_date = true
      · rw [show insertByDateDesc e (f :: fs) = e :: f :: fs from by
          simp [insertByDateDesc, h]]
        refine List.pairwise_cons.mpr ⟨?_, hl⟩
        intro x hx
        rcases List.mem_cons.mp hx with rfl | hx
        · exact h
        · exact date_le_trans (hf x hx) h
      · rw [show insertByDateDesc e (f :: fs) = f :: insertByDateDesc e fs from by
          simp [insertByDateDesc, h]]
        refine List.pairwise_cons.mpr ⟨?_, ih hfs⟩
        intro x hx
        rcases mem_insertByDateDesc.mp hx with rfl | hx
        · rcases date_le_total f.entry_date x.entry_date with h' | h'
          · exact absurd h' h
          · exact h'
        · exact hf x hx

/-- The modelled `ORDER BY` output is date-descending. -/
lemma orderByDateDesc_pairwise (l : List Entry) :
    (orderByDateDesc l).Pairwise DateGe := by
  induction l with
  | nil => simp [orderByDateDesc, List.Pairwise]
  | cons e es ih => exact pairwise_insertByDateDesc ih

/-! ### Repeated submissions on one calendar date -/

/-- One user turn as it reaches `save_conversation_message`: the message,
the generated reply, the analysis of this message, and the wall-clock time
of the call. -/
structure Submission where
  now : String
  user_message : String
  ai_response : String
  sentiment : String
  sentiment_score : ℚ
  themes : List String
deriving DecidableEq

/-- The conversation element a submission appends. -/
def mkMsg (s : Submission) : Message := ⟨s.user_message, s.ai_response, s.now⟩

/-- One call of `save_conversation_message` for date `d` (the hook plays no
role in the stored state, so it is left unconfigured here). -/
def submit (db : DB) (d : String) (s : Submission) : DB :=
  (save_conversation_message db none d s.now s.user_message s.ai_response
    s.sentiment s.sentiment_score s.themes).db

/-- A sequence of submissions on the same calendar date, in order. -/
def saveAll (db : DB) (d : String) (msgs : List Submission) : DB :=
  msgs.foldl (fun db s => submit db d s) db

/-- The row inserted by the first submission of date `d`. -/
def freshEntry (n : Nat) (d : String) (s : Submission) : Entry :=
  ⟨n, d, [mkMsg s], some s.sentiment, some s.sentiment_score, some s.themes,
   none, s.now, s.now⟩

lemma findByDate_eq_none {db : DB} {d : String}
    (hd : ∀ e ∈ db.entries, e.entry_date ≠ d) : findByDate db d = none := by
  apply List.find?_eq_none.mpr
  intro e he
  simpa using hd e he

/-- A submission on a date with no row inserts the fresh row at the end. -/
lemma submit_fresh {db : DB} {d : String} (s : Submission)
    (hd : ∀ e ∈ db.entries, e.entry_date ≠ d) :
    submit db d s = ⟨db.entries ++ [freshEntry db.nextId d s], db.nextId + 1⟩ := by
  unfold submit save_conversation_message
  rw [findByDate_eq_none hd]
  rfl

/-- A submission on a date whose row is the last entry appends to that row's
conversation and touches nothing else. -/
lemma submit_existing {front : List Entry} {e : Entry} {n : Nat} {d : String}
    (s : Submission) (hdate : e.entry_date = d)
    (hfront : ∀ f ∈ front, f.entry_date ≠ d)
    (hids : ∀ f ∈ front, f.id ≠ e.id) :
    submit ⟨front ++ [e], n⟩ d s
      = ⟨front ++ [{ e with
          conversation := e.conversation ++ [mkMsg s],
          updated_at := s.now }], n⟩ := by
  have hfind : findByDate ⟨front ++ [e], n⟩ d = some e := by
    unfold findByDate
    rw [List.find?_append, List.find?_eq_none.mpr (fun f hf => by simpa using hfront f hf)]
    simp [List.find?, hdate]
  unfold submit save_conversation_message
  rw [hfind]
  dsimp only
  rw [List.map_append]
  congr 1
  congr 1
  · conv_rhs => rw [← List.map_id front]
    apply List.map_congr_left
    intro f hf
    rw [if_neg (by simp [hids f hf])]
    rfl
  · simp only [List.map_cons, List.map_nil]
    congr 1
    rw [if_pos (by simp)]
    rfl

/-- Folding further submissions over a database whose last row is the date's
row keeps appending to that row's conversation. -/
lemma saveAll_existing (msgs : List Submission) :
    ∀ (front : List Entry) (e : Entry) (n : Nat) (d : String),
      e.entry_date = d →
      (∀ f ∈ front, f.entry_date ≠ d) →
      (∀ f ∈ front, f.id ≠ e.id) →
      ∃ ts, saveAll ⟨front ++ [e], n⟩ d msgs
        = ⟨front ++ [{ e with
            conversation := e.conversation ++ msgs.map mkMsg,
            updated_at := ts }], n⟩ := by
  induction msgs with
  | nil =>
      intro front e n d _ _ _
      refine ⟨e.updated_at, ?_⟩
      simp [saveAll]
  | cons s rest ih =>
      intro front e n d hdate hfront hids
      have hstep := @submit_existing front e n d s hdate hfront hids
      have hrec := ih front
        { e with conversation := e.conversation ++ [mkMsg s], updated_at := s.now }
        n d hdate hfront (by simpa using hids)
      rcases hrec with ⟨ts, hts⟩
      refine ⟨ts, ?_⟩
      calc saveAll ⟨front ++ [e], n⟩ d (s :: rest)
          = saveAll (submit ⟨front ++ [e], n⟩ d s) d rest := rfl
        _ = saveAll ⟨front ++ [{ e with
              conversation := e.conversation ++ [mkMsg s],
              updated_at := s.now }], n⟩ d rest := by rw [hstep]
        _ = ⟨front ++ [{ e with
              conversation := (e.conversation ++ [mkMsg s]) ++ rest.map mkMsg,
              updated_at := ts }], n⟩ := hts
        _ = ⟨front ++ [{ e with
              conversation := e.conversation ++ (s :: rest).map mkMsg,
              updated_at := ts }], n⟩ := by
              simp [List.append_assoc]

/-- A non-empty run of submissions on a previously unused date yields the
old rows plus exactly one new row carrying the whole conversation and the
first submission's analysis. -/
lemma saveAll_fresh_spec (db : DB) (d : String) (s0 : Submission)
    (msgs : List Submission)
    (hd : ∀ e ∈ db.entries, e.entry_date ≠ d)
    (hid : ∀ e ∈ db.entries, e.id < db.nextId) :
    ∃ ts, saveAll db d (s0 :: msgs)
      = ⟨db.entries ++
          [⟨db.nextId, d, (s0 :: msgs).map mkMsg, some s0.sentiment,
            some s0.sentiment_score, some s0.themes, none, s0.now, ts⟩],
         db.nextId + 1⟩ := by
  have hstep : saveAll db d (s0 :: msgs)
      = saveAll ⟨db.entries ++ [freshEntry db.nextId d s0], db.nextId + 1⟩ d msgs := by
    show saveAll (submit db d s0) d msgs
      = saveAll ⟨db.entries ++ [freshEntry db.nextId d s0], db.nextId + 1⟩ d msgs
    rw [submit_fresh s0 hd]
  have hrec := saveAll_existing msgs db.entries (freshEntry db.nextId d s0)
    (db.nextId + 1) d rfl hd
    (fun f hf => Nat.ne_of_lt (hid f hf))
  rcases hrec with ⟨ts, hts⟩
  refine ⟨ts, ?_⟩
  rw [hstep, hts]
  rfl

/-- Looking up a date whose only row is the last entry finds that entry. -/
lemma findByDate_last (front : List Entry) (e : Entry) (n : Nat) (d : String)
    (hdate : e.entry_date = d) (hfront : ∀ f ∈ front, f.entry_date ≠ d) :
    findByDate ⟨front ++ [e], n⟩ d = some e := by
  unfold findByDate
  rw [List.find?_append, List.find?_eq_none.mpr (fun f hf => by simpa using hfront f hf)]
  simp [List.find?, hdate]

/-! ### The theme-selection loop of `analyze_entry` -/

/-- The accumulator loop of `analyze_entry` collects the first three
passing pairs, whatever the accumulator already holds. -/
lemma select_foldl (l : List (String × ℚ)) :
    ∀ acc : List (String × ℚ),
      l.foldl (fun acc ls => if ls.2 > 3/10 ∧ acc.length < 3 then acc ++ [ls] else acc) acc
        = acc ++ (l.filter (fun p => 3/10 < p.2)).take (3 - acc.length) := by
  induction l with
  | nil => intro acc; simp
  | cons p rest ih =>
      intro acc
      rw [List.foldl_cons]
      by_cases hp : (3 : ℚ)/10 < p.2
      · by_cases ha : acc.length < 3
        · rw [if_pos ⟨hp, ha⟩, ih]
          rw [List.filter_cons, if_pos (by simpa using hp)]
          rw [List.take_cons (n := 3 - acc.length) (by omega)]
          simp only [List.length_append, List.length_cons, List.length_nil]
          rw [List.append_assoc]
          congr 2
        · rw [if_neg (by tauto), ih]
          have h0 : 3 - acc.length = 0 := by omega
          have h0' : 3 - (acc.length) = 0 := h0
          rw [List.filter_cons, if_pos (by simpa using hp)]
          rw [h0, List.take_zero, List.take_zero]
      · rw [if_neg (by tauto), ih, List.filter_cons, if_neg (by simpa using hp)]

/-! ### Substring facts for the fallback replies -/

/-- A pattern starts at the head of itself followed by anything. -/
lemma startsWithChars_append_self (p r : List Char) :
    startsWithChars p (p ++ r) = true := by
  induction p with
  | nil => rfl
  | cons a as ih => simp [startsWithChars, ih]

/-- A string that ends with the pattern contains the pattern. -/
lemma infixChars_suffix (p s : List Char) : infixChars p (s ++ p) = true := by
  induction s with
  | nil =>
      cases p with
      | nil => rfl
      | cons a as =>
          have h := startsWithChars_append_self (a :: as) []
          rw [List.append_nil] at h
          simp [infixChars, h]
  | cons d s' ih => simp [infixChars, ih]

/-! ### `LIKE '%term%'` is the ASCII-case-insensitive substring test -/

lemma likeMatch_percent_one (s : List Char) : likeMatch ['%'] s = true := by
  induction s with
  | nil => rfl
  | cons d s ih =>
      simp only [likeMatch, if_pos] at ih ⊢
      simp only [anySuffix, Bool.or_eq_true]
      right
      simpa using ih

/-- A leading `%` tries the rest of the pattern on every suffix. -/
lemma likeMatch_percent (p : List Char) (s : List Char) :
    likeMatch ('%' :: p) s = anySuffix (likeMatch p) s := by
  simp [likeMatch]

/-- A wildcard-free pattern followed by `%` matches exactly the strings it
is a case-folded prefix of. -/
lemma likeMatch_nowild_percent :
    ∀ t : List Char, (∀ c ∈ t, c ≠ '%' ∧ c ≠ '_') →
      ∀ s, likeMatch (t ++ ['%']) s
        = startsWithChars (t.map lowerAscii) (s.map lowerAscii) := by
  intro t
  induction t with
  | nil =>
      intro _ s
      simp only [List.nil_append, List.map_nil, startsWithChars]
      exact likeMatch_percent_one s
  | cons c t' ih =>
      intro hw s
      have hc := hw c (List.mem_cons_self c t')
      have hw' : ∀ x ∈ t', x ≠ '%' ∧ x ≠ '_' :=
        fun x hx => hw x (List.mem_cons_of_mem c hx)
      cases s with
      | nil => simp [likeMatch, startsWithChars, hc.1]
      | cons d s' =>
          simp only [List.cons_append, likeMatch, if_neg hc.1, if_neg hc.2,
            List.map_cons, startsWithChars, List.append_eq]
          rw [ih hw' s']

lemma anySuffix_congr {f g : List Char → Bool} (h : ∀ s, f s = g s) :
    ∀ s, anySuffix f s = anySuffix g s := by
  intro s
  induction s with
  | nil => simpa [anySuffix] using h []
  | cons d s ih => simp [anySuffix, ih, h (d :: s)]

lemma anySuffix_map {f : List Char → Bool} {g : Char → Char} :
    ∀ s, anySuffix (fun x => f (x.map g)) s = anySuffix f (s.map g) := by
  intro s
  induction s with
  | nil => simp [anySuffix]
  | cons d s ih => simp [anySuffix, ih]

lemma infixChars_eq_anySuffix (pat : List Char) :
    ∀ s, infixChars pat s = anySuffix (startsWithChars pat) s := by
  intro s
  induction s with
  | nil => rfl
  | cons d s ih => simp [infixChars, anySuffix, ih]

/-- For a wildcard-free term, the code's `LIKE '%term%'` test is exactly
the ASCII-case-insensitive substring test. -/
lemma likeContains_ci (term : String)
    (hw : ∀ c ∈ term.data, c ≠ '%' ∧ c ≠ '_') (s : String) :
    likeContains s term = containsStr (str_lower s) (str_lower term) := by
  show likeMatch ('%' :: (term.data ++ ['%'])) s.data
    = infixChars (str_lower term).data (str_lower s).data
  rw [likeMatch_percent, anySuffix_congr (likeMatch_nowild_percent term.data hw),
    anySuffix_map, ← infixChars_eq_anySuffix]
  rfl

/-! ### Small facts about the write events -/

/-- What `_notify_after_commit` logs after the hook call itself. -/
def hook_tail : Except String Unit → List Event
  | Except.ok _ => []
  | Except.error e => [Event.hookError ("⚠️ after_commit callback error: " ++ e)]

lemma notify_some (r : Except String Unit) :
    notify_after_commit (some r) = Event.hookCalled :: hook_tail r := by
  cases r <;> rfl

/-- The SQL `conversation != '[]'` filter is list non-emptiness. -/
lemma conv_filter_eq (l : List Entry) :
    l.filter (fun e => !(dumps_conversation e.conversation == "[]"))
      = l.filter (fun e => !(e.conversation == [])) :=
  List.filter_congr (fun e _ => by rw [dumps_beq_brackets])

/-! ### Concrete fixtures used by witnesses and counterexamples -/

/-- A morning turn: negative sentiment, mental-health theme. -/
def subA : Submission :=
  ⟨"2026-10-12T09:00:00", "Work felt overwhelming today", "That sounds hard",
   "negative", 1, ["Emotions & Mental Health"]⟩

/-- An evening turn on the same date: positive sentiment, wellness theme. -/
def subB : Submission :=
  ⟨"2026-10-12T21:00:00", "An evening walk helped a lot", "So glad to hear it",
   "positive", 1, ["Health & Wellness"]⟩

/-- The store after both turns of 2026-10-12 land in a fresh database. -/
def cexDb2 : DB := saveAll init_database "2026-10-12" [subA, subB]

/-- A row with an empty conversation but a non-NULL sentiment: the shape the
stats asymmetry is about. -/
def moodOnlyDb : DB :=
  ⟨[⟨1, "2026-10-10", [], some "positive", none, none, some "happy:#FFF44F",
     "2026-10-10T08:00:00", "2026-10-10T08:00:00"⟩], 2⟩

/-- One journaled day inside the weekly window. -/
def wdbC : DB :=
  ⟨[⟨1, "2026-10-10", [⟨"I am grateful for my family", "That is lovely",
       "2026-10-10T20:00:00"⟩], some "positive", none, some ["Personal Growth"],
     none, "2026-10-10T20:00:00", "2026-10-10T20:00:00"⟩], 2⟩

/-- A lazy model reply that echoes the prompt's bracket placeholders. -/
def lazyReply : String :=
  "## Gratitude This Week\n[List the things they were grateful for, with brief context]\n\n## What You Learned\n[List new insights, learnings, or realizations they had]"

/-- A stored row whose conversation contains `Run` but not `run`. -/
def c9db : DB :=
  ⟨[⟨1, "2026-10-11", [⟨"I went for a Run today", "Nice!", "2026-10-11T10:00:00"⟩],
     none, none, none, none, "2026-10-11T10:00:00", "2026-10-11T10:00:00"⟩], 2⟩

/-- A chat call that always raises. -/
def failingChat : List (String × String) → Except String String :=
  fun _ => Except.error "HTTPSConnectionPool timeout"

/-! ### The claims -/

/-- C1 (counterexample).  The claim says the stored sentiment and themes
equal the analysis of the last message of the day.  After the two turns of
`cexDb2` the stored row still carries the first turn's `negative` /
`Emotions & Mental Health` analysis, not the second turn's `positive` /
`Health & Wellness`: the UPDATE branch of `save_conversation_message` never
writes the sentiment columns. -/
theorem C1_last_message_counterexample :
    (findByDate cexDb2 "2026-10-12").map Entry.overall_sentiment
        = some (some "negative")
    ∧ (findByDate cexDb2 "2026-10-12").map Entry.themes
        = some (some ["Emotions & Mental Health"])
    ∧ ¬ ((findByDate cexDb2 "2026-10-12").map Entry.overall_sentiment
        = some (some "positive"))
    ∧ subB.sentiment = "positive" ∧ subB.themes = ["Health & Wellness"] := by
  decide

/-- C1 (amended).  For every run of N ≥ 1 submissions on a date that had no
row, the stored row holds all N messages in order, but its sentiment label,
sentiment score and themes are those of the FIRST message of the day: the
append path of `save_conversation_message` only rewrites `conversation` and
`updated_at`. -/
theorem C1_analysis_from_first_message (db : DB) (d : String)
    (msgs : List Submission)
    (hd : ∀ e ∈ db.entries, e.entry_date ≠ d)
    (hid : ∀ e ∈ db.entries, e.id < db.nextId)
    (hne : msgs ≠ []) :
    ∃ e, findByDate (saveAll db d msgs) d = some e
      ∧ e.conversation = msgs.map mkMsg
      ∧ e.overall_sentiment = some (msgs.head hne).sentiment
      ∧ e.sentiment_score = some (msgs.head hne).sentiment_score
      ∧ e.themes = some (msgs.head hne).themes := by
  cases msgs with
  | nil => exact absurd rfl hne
  | cons s0 rest =>
      obtain ⟨ts, hts⟩ := saveAll_fresh_spec db d s0 rest hd hid
      rw [hts]
      exact ⟨_, findByDate_last db.entries _ _ d rfl hd, rfl, rfl, rfl, rfl⟩

/-- C1 (witness): the amended theorem at the two concrete turns. -/
theorem C1_witness :
    ∃ e, findByDate (saveAll init_database "2026-10-12" [subA, subB]) "2026-10-12"
          = some e
      ∧ e.conversation = [subA, subB].map mkMsg
      ∧ e.overall_sentiment = some ([subA, subB].head (by decide)).sentiment
      ∧ e.sentiment_score = some ([subA, subB].head (by decide)).sentiment_score
      ∧ e.themes = some ([subA, subB].head (by decide)).themes :=
  C1_analysis_from_first_message init_database "2026-10-12" [subA, subB]
    (by decide) (by decide) (by decide)

/-- C2.  A run of N ≥ 1 submissions on a previously unused date leaves
exactly one row carrying that date, adds exactly one row to the table, and
that row's conversation is precisely the N submitted messages in order. -/
theorem C2_one_row_per_date (db : DB) (d : String) (msgs : List Submission)
    (hd : ∀ e ∈ db.entries, e.entry_date ≠ d)
    (hid : ∀ e ∈ db.entries, e.id < db.nextId)
    (hne : msgs ≠ []) :
    ((saveAll db d msgs).entries.filter (fun e => e.entry_date == d)).length = 1
    ∧ (saveAll db d msgs).entries.length = db.entries.length + 1
    ∧ ∃ e, findByDate (saveAll db d msgs) d = some e
        ∧ e.conversation = msgs.map mkMsg := by
  cases msgs with
  | nil => exact absurd rfl hne
  | cons s0 rest =>
      obtain ⟨ts, hts⟩ := saveAll_fresh_spec db d s0 rest hd hid
      rw [hts]
      refine ⟨?_, by simp, _, findByDate_last db.entries _ _ d rfl hd, rfl⟩
      rw [List.filter_append,
        List.filter_eq_nil_iff.mpr (fun e he => by simp [hd e he])]
      simp

/-- C2 (witness): the theorem at the two concrete turns. -/
theorem C2_witness :
    ((saveAll init_database "2026-10-12" [subA, subB]).entries.filter
        (fun e => e.entry_date == "2026-10-12")).length = 1
    ∧ (saveAll init_database "2026-10-12" [subA, subB]).entries.length
        = init_database.entries.length + 1
    ∧ ∃ e, findByDate (saveAll init_database "2026-10-12" [subA, subB]) "2026-10-12"
          = some e
        ∧ e.conversation = [subA, subB].map mkMsg :=
  C2_one_row_per_date init_database "2026-10-12" [subA, subB]
    (by decide) (by decide) (by decide)

/-- C3.  When the theme model returns its labels in descending score order,
`analyze_entry` keeps exactly the labels scoring strictly above 0.30, in
that order, truncated to the top 3; if nothing clears the threshold the
list is empty (and the function is total, so no error is possible). -/
theorem C3_theme_threshold (sl : String) (ss : ℚ)
    (labels : List String) (scores : List ℚ)
    (hsorted : (labels.zip scores).Pairwise (fun a b => b.2 ≤ a.2)) :
    (analyze_entry sl ss labels scores).themes
        = ((labels.zip scores).filter (fun p => 3/10 < p.2)).take 3
    ∧ (analyze_entry sl ss labels scores).themes.Pairwise (fun a b => b.2 ≤ a.2)
    ∧ ((∀ p ∈ labels.zip scores, p.2 ≤ 3/10) →
        (analyze_entry sl ss labels scores).themes = []) := by
  have hval : (analyze_entry sl ss labels scores).themes
      = ((labels.zip scores).filter (fun p => 3/10 < p.2)).take 3 := by
    show (labels.zip scores).foldl _ [] = _
    rw [select_foldl (labels.zip scores) []]
    simp
  refine ⟨hval, ?_, ?_⟩
  · rw [hval]
    exact List.Pairwise.sublist ((List.take_sublist _ _).trans (List.filter_sublist _)) hsorted
  · intro hall
    rw [hval, List.filter_eq_nil_iff.mpr (fun p hp => by simp [not_lt.mpr (hall p hp)]),
      List.take_nil]

/-- The spec's P4 score vector `[0.9, 0.5, 0.31, 0.29, 0.1]`, padded with
scores below the threshold for the remaining candidate labels. -/
def p4_scores : List ℚ := [9/10, 1/2, 31/100, 29/100, 1/10, 1/100, 1/100, 1/100]

/-- C3 (witness): the spec's own P4 vector. -/
theorem C3_witness :
    (analyze_entry "positive" (9/10) THEMES p4_scores).themes
      = ((THEMES.zip p4_scores).filter (fun p => 3/10 < p.2)).take 3
    ∧ (analyze_entry "positive" (9/10) THEMES p4_scores).themes.Pairwise
        (fun a b => b.2 ≤ a.2)
    ∧ ((∀ p ∈ THEMES.zip p4_scores, p.2 ≤ 3/10) →
        (analyze_entry "positive" (9/10) THEMES p4_scores).themes = []) :=
  C3_theme_threshold "positive" (9/10) THEMES p4_scores
    (by
      simp only [p4_scores, THEMES, List.zip, List.zipWith, List.pairwise_cons,
        List.mem_cons, List.Pairwise.nil, List.not_mem_nil, false_implies,
        implies_true, and_true, forall_eq_or_imp, forall_eq]
      refine ⟨?_, ?_, ?_, ?_, ?_, ?_, ?_⟩ <;> norm_num)

/-- C4.  When the chat call raises, `generate_response` returns the apology
string embedding the error text: a non-empty string containing the error,
and (being a total function into `String`) never a raised exception. -/
theorem C4_generator_fallback
    (chat : List (String × String) → Except String String)
    (entry_text : String) (analysis : Analysis) (err : String)
    (h : chat (response_messages entry_text analysis) = Except.error err) :
    generate_response chat entry_text analysis
        = "I'm having trouble connecting right now. Error: " ++ err
    ∧ generate_response chat entry_text analysis ≠ ""
    ∧ containsStr (generate_response chat entry_text analysis) err = true := by
  have h1 : generate_response chat entry_text analysis
      = "I'm having trouble connecting right now. Error: " ++ err := by
    unfold generate_response
    rw [h]
  refine ⟨h1, ?_, ?_⟩
  · rw [h1]
    intro hc
    have hdata := congrArg String.data hc
    rw [String.data_append] at hdata
    exact absurd (List.append_eq_nil.mp hdata).1 (by decide)
  · rw [h1]
    show infixChars err.data
      ("I'm having trouble connecting right now. Error: " ++ err).data = true
    rw [String.data_append]
    exact infixChars_suffix err.data _

/-- C4 (witness): a chat stub that always raises a timeout. -/
theorem C4_witness :
    generate_response failingChat "I went for a run" ⟨"positive", 1, []⟩
        = "I'm having trouble connecting right now. Error: "
            ++ "HTTPSConnectionPool timeout"
    ∧ generate_response failingChat "I went for a run" ⟨"positive", 1, []⟩ ≠ ""
    ∧ containsStr (generate_response failingChat "I went for a run" ⟨"positive", 1, []⟩)
        "HTTPSConnectionPool timeout" = true :=
  C4_generator_fallback failingChat "I went for a run" ⟨"positive", 1, []⟩
    "HTTPSConnectionPool timeout" rfl

set_option maxRecDepth 1000000 in
/-- C5.  The weekly wrap's three fallbacks: an empty 7-day query yields the
fixed no-entries placeholder; a non-empty week whose model reply still
contains a literal bracket placeholder yields the distinct
insufficient-content panel naming the day range and day count; a raised
chat call yields the error panel.  The final conjunct checks on a concrete
run that the returned panel does not contain the raw placeholder text the
model echoed. -/
theorem C5_weekly_wrap_fallbacks (db : DB) (cutoff : String)
    (chat : List (String × String) → Except String String)
    (content err : String) :
    (get_weekly_entries db cutoff = [] →
      generate_weekly_wrap db cutoff chat = weekly_no_entries)
    ∧ (∀ e0 rest, get_weekly_entries db cutoff = e0 :: rest →
        (∀ msgs, chat msgs = Except.ok content) →
        (containsStr content "[List" || containsStr content "[A short") = true →
        generate_weekly_wrap db cutoff chat
          = weekly_insufficient
              ((e0 :: rest).getLast (List.cons_ne_nil e0 rest)).entry_date
              e0.entry_date (e0 :: rest).length)
    ∧ (∀ e0 rest, get_weekly_entries db cutoff = e0 :: rest →
        (∀ msgs, chat msgs = Except.error err) →
        generate_weekly_wrap db cutoff chat = weekly_error (e0 :: rest).length err)
    ∧ (generate_weekly_wrap wdbC "2026-10-05" (fun _ => Except.ok lazyReply)
          = weekly_insufficient "2026-10-10" "2026-10-10" 1
      ∧ containsStr
          (generate_weekly_wrap wdbC "2026-10-05" (fun _ => Except.ok lazyReply))
          "[List" = false
      ∧ containsStr
          (generate_weekly_wrap wdbC "2026-10-05" (fun _ => Except.ok lazyReply))
          "[A short" = false
      ∧ containsStr lazyReply "[List" = true) := by
  refine ⟨?_, ?_, ?_, ?_⟩
  · intro h
    unfold generate_weekly_wrap
    rw [h]
  · intro e0 rest he hok hplc
    unfold generate_weekly_wrap
    rw [he]
    dsimp only
    rw [hok]
    dsimp only
    rw [if_pos hplc]
  · intro e0 rest he herr
    unfold generate_weekly_wrap
    rw [he]
    dsimp only
    rw [herr]
  · decide

set_option maxRecDepth 1000000 in
/-- C5 (witness): the insufficient-content branch at the concrete week. -/
theorem C5_witness :
    generate_weekly_wrap wdbC "2026-10-05" (fun _ => Except.ok lazyReply)
      = weekly_insufficient "2026-10-10" "2026-10-10" 1 := by
  have h := (C5_weekly_wrap_fallbacks wdbC "2026-10-05"
    (fun _ => Except.ok lazyReply) lazyReply "boom").2.1
  exact h
    ⟨1, "2026-10-10", [⟨"I am grateful for my family", "That is lovely",
        "2026-10-10T20:00:00"⟩], some "positive", none, some ["Personal Growth"],
      none, "2026-10-10T20:00:00", "2026-10-10T20:00:00"⟩ []
    (by decide) (fun _ => rfl) (by decide)

/-- C6.  Each committed mutation — message append, mood-color save and
delete — emits the commit and then the configured hook call; when the hook
raises, the error is logged into the trace and the committed database and
the Python return value are exactly those of a run with no hook at all, so
the failure never propagates and never loses the local write. -/
theorem C6_after_commit_hook (db : DB) (r : Except String Unit)
    (today now user ai sent color : String) (score : ℚ) (themes : List String)
    (eid : Nat) :
    ((save_conversation_message db (some r) today now user ai sent score themes).events
        = Event.commit :: Event.hookCalled :: hook_tail r
      ∧ (save_conversation_message db (some r) today now user ai sent score themes).db
        = (save_conversation_message db none today now user ai sent score themes).db
      ∧ (save_conversation_message db (some r) today now user ai sent score themes).ret
        = (save_conversation_message db none today now user ai sent score themes).ret)
    ∧ ((save_mood_color db (some r) today now color).events
        = Event.commit :: Event.hookCalled :: hook_tail r
      ∧ (save_mood_color db (some r) today now color).db
        = (save_mood_color db none today now color).db)
    ∧ ((delete_entry db (some r) eid).events
        = Event.commit :: Event.hookCalled :: hook_tail r
      ∧ (delete_entry db (some r) eid).db = (delete_entry db none eid).db) := by
  refine ⟨⟨?_, ?_, ?_⟩, ⟨?_, ?_⟩, ⟨?_, ?_⟩⟩ <;>
    cases hf : findByDate db today <;>
      simp [save_conversation_message, save_mood_color, delete_entry, hf, notify_some]

/-- C7.  `save_mood_color` on a date with no row inserts a row whose
conversation is the empty list; on a date with a row it maps the update
over the rows, and that update touches only `mood_color` and `updated_at`,
leaving id, date, conversation, sentiment, score and themes untouched. -/
theorem C7_mood_color_frame (db : DB) (hook : Hook) (today now color : String) :
    (findByDate db today = none →
      (save_mood_color db hook today now color).db.entries
        = db.entries
            ++ [⟨db.nextId, today, [], none, none, none, some color, now, now⟩])
    ∧ (∀ x, findByDate db today = some x →
        (save_mood_color db hook today now color).db.entries
          = db.entries.map (fun e =>
              if e.entry_date == today then
                { e with mood_color := some color, updated_at := now }
              else e))
    ∧ (∀ e : Entry,
        ((if e.entry_date == today then
            { e with mood_color := some color, updated_at := now }
          else e) : Entry).id = e.id
        ∧ ((if e.entry_date == today then
              { e with mood_color := some color, updated_at := now }
            else e) : Entry).entry_date = e.entry_date
        ∧ ((if e.entry_date == today then
              { e with mood_color := some color, updated_at := now }
            else e) : Entry).conversation = e.conversation
        ∧ ((if e.entry_date == today then
              { e with mood_color := some color, updated_at := now }
            else e) : Entry).overall_sentiment = e.overall_sentiment
        ∧ ((if e.entry_date == today then
              { e with mood_color := some color, updated_at := now }
            else e) : Entry).sentiment_score = e.sentiment_score
        ∧ ((if e.entry_date == today then
              { e with mood_color := some color, updated_at := now }
            else e) : Entry).themes = e.themes) := by
  refine ⟨?_, ?_, ?_⟩
  · intro h
    unfold save_mood_color
    rw [h]
  · intro x h
    unfold save_mood_color
    rw [h]
  · intro e
    by_cases h : (e.entry_date == today) = true <;> simp [h]

/-- C7 (witness): one fresh-date save and one existing-date save. -/
theorem C7_witness :
    (save_mood_color init_database none "2026-10-12" "T" "calm:#FFFFFF").db.entries
      = init_database.entries
          ++ [⟨init_database.nextId, "2026-10-12", [], none, none, none,
              some "calm:#FFFFFF", "T", "T"⟩]
    ∧ (save_mood_color moodOnlyDb none "2026-10-10" "T2" "sad:#4169E1").db.entries
      = moodOnlyDb.entries.map (fun e =>
          if e.entry_date == "2026-10-10" then
            { e with mood_color := some "sad:#4169E1", updated_at := "T2" }
          else e) :=
  ⟨(C7_mood_color_frame init_database none "2026-10-12" "T" "calm:#FFFFFF").1 rfl,
   (C7_mood_color_frame moodOnlyDb none "2026-10-10" "T2" "sad:#4169E1").2.1
     ⟨1, "2026-10-10", [], some "positive", none, none, some "happy:#FFF44F",
       "2026-10-10T08:00:00", "2026-10-10T08:00:00"⟩ (by decide)⟩

/-- C8.  `get_stats` counts days and takes the most recent date only over
rows with a non-empty conversation, and `get_weekly_entries` filters those
rows out too; but the sentiment grouping is blind to the conversation
column (erasing every conversation leaves the groups unchanged), so the
mood-color-only row of `moodOnlyDb`, carrying a non-NULL sentiment, counts
for `POSITIVE` while contributing nothing to the totals or the week. -/
theorem C8_stats_asymmetry :
    (∀ db : DB,
      (get_stats db).total_entries
          = (db.entries.filter (fun e => !(e.conversation == []))).length
      ∧ (get_stats db).last_entry
          = sql_max_date ((db.entries.filter (fun e => !(e.conversation == []))).map
              (fun e => e.entry_date))
      ∧ (∀ cutoff, get_weekly_entries db cutoff
          = orderByDateDesc (db.entries.filter (fun e =>
              date_le cutoff e.entry_date && !(e.conversation == []))))
      ∧ sentiment_groups (db.entries.map (fun e => { e with conversation := [] }))
          = sentiment_groups db.entries)
    ∧ ((get_stats moodOnlyDb).total_entries = 0
      ∧ (get_stats moodOnlyDb).last_entry = none
      ∧ get_weekly_entries moodOnlyDb "0001-01-01" = []
      ∧ (get_stats moodOnlyDb).sentiment_counts = [("POSITIVE", 1)]) := by
  refine ⟨fun db => ⟨?_, ?_, ?_, ?_⟩, by decide⟩
  · show (db.entries.filter (fun e => !(dumps_conversation e.conversation == "[]"))).length = _
    rw [conv_filter_eq]
  · show sql_max_date ((db.entries.filter
        (fun e => !(dumps_conversation e.conversation == "[]"))).map _) = _
    rw [conv_filter_eq]
  · intro cutoff
    unfold get_weekly_entries
    congr 1
    exact List.filter_congr (fun e _ => by rw [dumps_beq_brackets])
  · unfold sentiment_groups
    rw [List.filterMap_map]
    simp only [List.filter_map, List.length_map]
    rfl

/-- C9 (counterexample).  Searching for `run` returns the row whose stored
text only contains `Run`: the claim's case-sensitive reading selects no row
at all, because SQLite's default `LIKE` is ASCII-case-insensitive. -/
theorem C9_case_sensitivity_counterexample :
    search_entries c9db "run" = c9db.entries
    ∧ c9db.entries.filter (fun e =>
        containsStr e.entry_date "run"
          || containsStr (dumps_conversation e.conversation) "run") = [] := by
  decide

/-- C9 (amended).  For a search term without the `LIKE` wildcards `%` and
`_`, `search_entries` returns exactly the rows whose date or serialized
conversation blob contains the term as an ASCII-case-insensitive substring,
ordered by date descending. -/
theorem C9_case_insensitive_search (db : DB) (term : String)
    (hw : ∀ c ∈ term.data, c ≠ '%' ∧ c ≠ '_') :
    List.Perm (search_entries db term)
      (db.entries.filter (fun e =>
        containsStr (str_lower e.entry_date) (str_lower term)
          || containsStr (str_lower (dumps_conversation e.conversation))
              (str_lower term)))
    ∧ (search_entries db term).Pairwise DateGe := by
  constructor
  · unfold search_entries
    rw [List.filter_congr (fun e _ => by
      rw [likeContains_ci term hw, likeContains_ci term hw])]
    exact orderByDateDesc_perm _
  · exact orderByDateDesc_pairwise _

/-- C9 (witness): the amended theorem at the concrete store and term. -/
theorem C9_witness :
    List.Perm (search_entries c9db "run")
      (c9db.entries.filter (fun e =>
        containsStr (str_lower e.entry_date) (str_lower "run")
          || containsStr (str_lower (dumps_conversation e.conversation))
              (str_lower "run")))
    ∧ (search_entries c9db "run").Pairwise DateGe :=
  C9_case_insensitive_search c9db "run" (by decide)

/-- C10.  Deleting an id that matches no row commits without error, leaves
the whole store unchanged, and still invokes the after-commit hook. -/
theorem C10_delete_missing_id (db : DB) (r : Except String Unit) (eid : Nat)
    (h : ∀ e ∈ db.entries, e.id ≠ eid) :
    (delete_entry db (some r) eid).db = db
    ∧ (delete_entry db (some r) eid).events
        = Event.commit :: Event.hookCalled :: hook_tail r := by
  constructor
  · unfold delete_entry
    dsimp only
    rw [List.filter_eq_self.mpr (fun e he => by simp [h e he])]
  · unfold delete_entry
    dsimp only
    rw [notify_some]

/-- C10 (witness): deleting the unused id 5 from the one-row store. -/
theorem C10_witness :
    (delete_entry moodOnlyDb (some (Except.ok ())) 5).db = moodOnlyDb
    ∧ (delete_entry moodOnlyDb (some (Except.ok ())) 5).events
        = Event.commit :: Event.hookCalled :: hook_tail (Except.ok ()) :=
  C10_delete_missing_id moodOnlyDb (Except.ok ()) 5 (by decide)

end Journal
